import Mathlib

/-!
Shallow embedding of the low-level socket layer of this repository:
the Unix-domain address codec and socket-pair factory
(src/sys/unix/uds/mod.rs) and the Windows TCP lifecycle and socket
option manager (src/sys/windows/tcp.rs).

Native OS calls (socketpair, fcntl, connect, listen, setsockopt,
getsockopt, getsockname, WSAIoctl) are modelled as explicit oracle
parameters giving each call's outcome; the functions of the repository
are translated over those oracles. Machine integers are modelled as
Nat/Int with explicit `% 2 ^ w` where a narrowing cast occurs in the
source (the only such cast is `as c_ushort` in set_linger).
-/

set_option autoImplicit false

namespace Mio

/-- Error kinds distinguished by the code: `io::ErrorKind::InvalidInput`,
`io::ErrorKind::WouldBlock`, and everything else collapsed to `Other`. -/
inductive ErrorKind where
  | InvalidInput
  | WouldBlock
  | Other
deriving DecidableEq, Repr

/-- An `io::Error`: a kind plus a human-readable message. -/
structure IoErr where
  kind : ErrorKind
  msg : String
deriving DecidableEq, Repr

/-! ## Unix-domain address codec (src/sys/unix/uds/mod.rs, `socket_addr`) -/

/-- `libc::AF_UNIX`. -/
def AF_UNIX : Nat := 1

/-- Capacity of `libc::sockaddr_un.sun_path` (108 bytes in libc on Linux). -/
def SUN_PATH_LEN : Nat := 108

/-- A `libc::sockaddr_un`: family tag plus fixed-capacity path buffer.
Bytes are modelled as `Nat` values; the `u8 → c_char` cast in the source
is the identity on the byte's bit pattern. -/
structure SockaddrUn where
  sun_family : Nat
  sun_path : List Nat
deriving DecidableEq, Repr

/-- Writing `bytes` elementwise over the front of the pre-zeroed buffer
`buf`, as `sun_path.iter_mut().zip(bytes.iter())` does: the first
`min |bytes| |buf|` slots take the bytes, the rest keep their old value. -/
def copy_into_buf (buf bytes : List Nat) : List Nat :=
  bytes.take buf.length ++ buf.drop bytes.length

/-- The error returned for over-long abstract addresses. -/
def abstract_ns_error : IoErr :=
  ⟨.InvalidInput, "path must be no longer than libc::sockaddr_un.sun_path"⟩

/-- The error returned for over-long pathname addresses. -/
def pathname_ns_error : IoErr :=
  ⟨.InvalidInput, "path must be shorter than libc::sockaddr_un.sun_path"⟩

/-- `socket_addr` from src/sys/unix/uds/mod.rs. Builds a zeroed
`sockaddr_un`, sets the family, validates the length by matching on
`(bytes.get(0), bytes.len().cmp(&sun_path.len()))`, copies the bytes
into the buffer, and computes the effective socket length. `offset` is
the platform-dependent `path_offset` (the byte offset of `sun_path`
inside the structure, computed from pointers in the source). -/
def socket_addr (offset : Nat) (bytes : List Nat) :
    Except IoErr (SockaddrUn × Nat) :=
  let sockaddr : SockaddrUn :=
    { sun_family := AF_UNIX, sun_path := List.replicate SUN_PATH_LEN 0 }
  match bytes.head?, compare bytes.length SUN_PATH_LEN with
  | some 0, .gt => .error abstract_ns_error
  | _, .gt | _, .eq => .error pathname_ns_error
  | _, _ =>
    let sockaddr := { sockaddr with
      sun_path := copy_into_buf sockaddr.sun_path bytes }
    let socklen := offset + bytes.length
    let socklen :=
      match bytes.head? with
      | some 0 | none => socklen
      | some _ => socklen + 1
    .ok (sockaddr, socklen)

/-! ## Unix-domain socket-pair factory (src/sys/unix/uds/mod.rs, `pair_descriptors`) -/

/-- `libc::SOCK_NONBLOCK` (Linux, 0o4000). -/
def SOCK_NONBLOCK : Nat := 2048

/-- `libc::SOCK_CLOEXEC` (Linux, 0o2000000). -/
def SOCK_CLOEXEC : Nat := 524288

/-- `libc::F_SETFL`. -/
def F_SETFL : Int := 4

/-- `libc::F_SETFD`. -/
def F_SETFD : Int := 2

/-- `libc::O_NONBLOCK` (Darwin/Solaris fallback path value). -/
def O_NONBLOCK : Int := 4

/-- `libc::FD_CLOEXEC`. -/
def FD_CLOEXEC : Int := 1

/-- One `fcntl(fd, cmd, arg)` adjustment call. -/
structure FcntlCall where
  fd : Int
  cmd : Int
  arg : Int
deriving DecidableEq, Repr

/-- The four post-creation adjustment calls the fallback path of
`pair_descriptors` issues, in source order: set non-blocking then
close-on-exec on `fds[0]`, then the same two on `fds[1]`. -/
def fallback_adjust_calls (fd0 fd1 : Int) : List FcntlCall :=
  [⟨fd0, F_SETFL, O_NONBLOCK⟩, ⟨fd0, F_SETFD, FD_CLOEXEC⟩,
   ⟨fd1, F_SETFL, O_NONBLOCK⟩, ⟨fd1, F_SETFD, FD_CLOEXEC⟩]

/-- Issues a list of fcntl calls in order through the oracle `fcntl`,
stopping at the first failing call (the `?` operator in the source)
and returning its error. -/
def run_adjust_calls (fcntl : FcntlCall → Except IoErr Int) :
    List FcntlCall → Except IoErr Unit
  | [] => .ok ()
  | c :: rest =>
    match fcntl c with
    | .error e => .error e
    | .ok _ => run_adjust_calls fcntl rest

/-- `pair_descriptors` on ios/macos/solaris (the families without
`SOCK_NONBLOCK`/`SOCK_CLOEXEC`): the pair is created with the plain
`flags` (default blocking, inheritable semantics), then the four
fcntl adjustments run. `socketpair` is the oracle for the creation
call, keyed by the flags argument and yielding the two descriptors. -/
def pair_descriptors_fallback (socketpair : Nat → Except IoErr (Int × Int))
    (fcntl : FcntlCall → Except IoErr Int) (flags : Nat) : Except IoErr Unit :=
  match socketpair flags with
  | .error e => .error e
  | .ok fds => run_adjust_calls fcntl (fallback_adjust_calls fds.1 fds.2)

/-- `pair_descriptors` on every other platform: `SOCK_NONBLOCK` and
`SOCK_CLOEXEC` are or-ed into the flags of the single creation call.
The second component records the flags value handed to `socketpair`. -/
def pair_descriptors_combined (socketpair : Nat → Except IoErr (Int × Int))
    (flags : Nat) : Except IoErr Unit × Nat :=
  let flags := flags ||| SOCK_NONBLOCK ||| SOCK_CLOEXEC
  (match socketpair flags with
   | .error e => .error e
   | .ok _ => .ok (), flags)

/-- First error among the outcomes of a list of fcntl calls, in call
order. Because `run_adjust_calls` stops at the first failure, it fails
with exactly this error. -/
def fcntl_first_error (fcntl : FcntlCall → Except IoErr Int) :
    List FcntlCall → Option IoErr
  | [] => none
  | c :: rest =>
    match fcntl c with
    | .error e => some e
    | .ok _ => fcntl_first_error fcntl rest

/-! ## Windows TCP lifecycle (src/sys/windows/tcp.rs) -/

/-- `winapi` `AF_INET`. -/
def AF_INET : Int := 2

/-- `winapi` `AF_INET6`. -/
def AF_INET6 : Int := 23

/-- `i32::max_value()`, the largest value of the signed backlog type. -/
def I32_MAX : Nat := 2147483647

/-- An owning stream object (`net::TcpStream`) wrapping a raw socket. -/
structure TcpStream where
  socket : Nat
deriving DecidableEq, Repr

/-- An owning listener object (`net::TcpListener`) wrapping a raw socket. -/
structure TcpListener where
  socket : Nat
deriving DecidableEq, Repr

/-- `bind`: issues the native bind call (outcome `res`) and maps any
error through, discarding the success value. -/
def bind (socket : Nat) (res : Except IoErr Int) : Except IoErr Unit :=
  match res with
  | .error e => .error e
  | .ok _ => .ok ()

/-- `connect`: issues the native non-blocking connect call (outcome
`res`); an error whose kind is not `WouldBlock` is returned, every
other outcome wraps the raw handle into an owning `TcpStream`. -/
def connect (socket : Nat) (res : Except IoErr Int) : Except IoErr TcpStream :=
  match res with
  | .error err =>
    if err.kind ≠ .WouldBlock then .error err else .ok ⟨socket⟩
  | .ok _ => .ok ⟨socket⟩

/-- `listen`: converts the `u32` backlog with
`try_into().unwrap_or(i32::max_value())`, issues the native listen call
through the oracle `os` and wraps the handle into a `TcpListener` on
success. The second component records the backlog value handed to the
native call. -/
def listen (socket : Nat) (backlog : Nat) (os : Nat → Except IoErr Int) :
    Except IoErr TcpListener × Nat :=
  let backlog := if backlog ≤ I32_MAX then backlog else I32_MAX
  (match os backlog with
   | .error e => .error e
   | .ok _ => .ok ⟨socket⟩, backlog)

/-! ## Windows socket option manager (src/sys/windows/tcp.rs) -/

/-- `winapi` `TRUE`. -/
def TRUE : Int := 1

/-- `winapi` `FALSE`. -/
def FALSE : Int := 0

/-- The `BOOL` value `set_reuseaddr` hands to `setsockopt`. -/
def reuseaddr_val (reuseaddr : Bool) : Int :=
  if reuseaddr then TRUE else FALSE

/-- `set_reuseaddr` with the kernel-stored `SO_REUSEADDR` flag made
explicit: `st` is the stored value before the call, `fail` the outcome
of `setsockopt` (`some e` means `SOCKET_ERROR` with `e` as the last OS
error); on success the returned state holds the encoded flag. -/
def set_reuseaddr (socket : Nat) (st : Int) (reuseaddr : Bool)
    (fail : Option IoErr) : Except IoErr Int :=
  match fail with
  | some e => .error e
  | none => .ok (reuseaddr_val reuseaddr)

/-- `get_reuseaddr`: reads the stored `SO_REUSEADDR` flag back through
`getsockopt` (failure outcome `fail`) and returns `optval != 0`. -/
def get_reuseaddr (socket : Nat) (st : Int) (fail : Option IoErr) :
    Except IoErr Bool :=
  match fail with
  | some e => .error e
  | none => .ok (st != 0)

/-- A `SOCKADDR_STORAGE` as `get_localaddr` sees it: the family tag and
the remaining payload bytes. -/
structure SockaddrStorage where
  ss_family : Int
  bytes : List Nat
deriving DecidableEq, Repr

/-- The portable address `get_localaddr` produces, tagged by which
native layout the storage bytes were reinterpreted as. -/
inductive LocalAddr where
  | V4 (storage : SockaddrStorage)
  | V6 (storage : SockaddrStorage)
deriving DecidableEq, Repr

/-- `get_localaddr`: issues `getsockname` (outcome `res`); on success
the storage is reinterpreted as `SOCKADDR_IN` when the family tag is
`AF_INET`, and as `SOCKADDR_IN6_LH` in every other case. -/
def get_localaddr (res : Except IoErr SockaddrStorage) :
    Except IoErr LocalAddr :=
  match res with
  | .error e => .error e
  | .ok addr =>
    if addr.ss_family = AF_INET then .ok (.V4 addr) else .ok (.V6 addr)

/-- A `std::time::Duration`: whole seconds plus a sub-second
nanosecond part. -/
structure Duration where
  secs : Nat
  nanos : Nat
deriving DecidableEq, Repr

/-- `Duration::as_secs`. -/
def Duration.as_secs (d : Duration) : Nat := d.secs

/-- `Duration::as_millis`. -/
def Duration.as_millis (d : Duration) : Nat :=
  d.secs * 1000 + d.nanos / 1000000

/-- `Duration::from_millis`. -/
def Duration.from_millis (ms : Nat) : Duration :=
  ⟨ms / 1000, ms % 1000 * 1000000⟩

/-- The winsock `linger` structure; both fields are `c_ushort`. -/
structure Linger where
  l_onoff : Nat
  l_linger : Nat
deriving DecidableEq, Repr

/-- The `linger` value `set_linger` builds: `l_onoff` is 1 exactly for
`Some`, and `l_linger` is `dur.as_secs() as c_ushort` — the cast to the
16-bit field wraps modulo `2 ^ 16` — with `unwrap_or_default()`
giving 0 for `None`. -/
def linger_val (dur : Option Duration) : Linger :=
  { l_onoff := if dur.isSome then 1 else 0,
    l_linger := (dur.map fun d => d.as_secs % 65536).getD 0 }

/-- `set_linger`: builds the `linger` block and hands it to
`setsockopt` (oracle `os`). The second component records the block
handed to the native call. -/
def set_linger (socket : Nat) (dur : Option Duration)
    (os : Linger → Except IoErr Unit) : Except IoErr Unit × Linger :=
  let val := linger_val dur
  (os val, val)

/-- The `mstcpip::tcp_keepalive` structure; all fields are `c_ulong`. -/
structure TcpKeepalive where
  onoff : Nat
  keepalivetime : Nat
  keepaliveinterval : Nat
deriving DecidableEq, Repr

/-- `get_keepalive`: issues the `SIO_KEEPALIVE_VALS` query via
`WSAIoctl`, whose return code is `res` and whose out-structure is `k`;
`osErr` is the last OS error read when `res` is non-zero. Return code 0
with the on/off flag 0 or a zero interval yields `None`; return code 0
otherwise yields the interval as a duration in milliseconds; any other
return code yields the OS error. -/
def get_keepalive (socket : Nat) (res : Int) (k : TcpKeepalive)
    (osErr : IoErr) : Except IoErr (Option Duration) :=
  if res = 0 then
    if k.onoff = 0 ∨ k.keepaliveinterval = 0 then .ok none
    else .ok (some (Duration.from_millis k.keepaliveinterval))
  else .error osErr

/-! ## Theorems about the address codec -/

/-- The byte sequence of the pathname address `"./foo/bar.txt"`. -/
def pathname_bytes : List Nat :=
  [46, 47, 102, 111, 111, 47, 98, 97, 114, 46, 116, 120, 116]

/-- The abstract address of the source's test: a zero byte followed by
the five bytes of `"tokio"`. -/
def abstract_bytes : List Nat := [0, 116, 111, 107, 105, 111]

/-- Closed-form characterization of `socket_addr`, proved by case
analysis on the first byte and the length comparison. -/
theorem socket_addr_characterization (offset : Nat) (bytes : List Nat) :
    socket_addr offset bytes =
      if bytes.head? = some 0 ∧ SUN_PATH_LEN < bytes.length then
        .error abstract_ns_error
      else if SUN_PATH_LEN ≤ bytes.length then
        .error pathname_ns_error
      else
        .ok (⟨AF_UNIX, copy_into_buf (List.replicate SUN_PATH_LEN 0) bytes⟩,
          offset + bytes.length +
            (if bytes.head? = some 0 ∨ bytes.head? = none then 0 else 1)) := by
  rcases hh : bytes.head? with _ | b
  · have hb : bytes = [] := List.head?_eq_none_iff.mp hh
    subst hb
    rfl
  · rcases hc : compare bytes.length SUN_PATH_LEN with _ | _ | _
    · have hlt : bytes.length < SUN_PATH_LEN := Nat.compare_eq_lt.mp hc
      rcases b with _ | b
      all_goals
        simp [socket_addr, hh, hc,
          show ¬SUN_PATH_LEN < bytes.length by omega,
          show ¬SUN_PATH_LEN ≤ bytes.length by omega]
    · have heq : bytes.length = SUN_PATH_LEN := Nat.compare_eq_eq.mp hc
      rcases b with _ | b
      all_goals
        simp [socket_addr, hh, hc,
          show ¬SUN_PATH_LEN < bytes.length by omega,
          show SUN_PATH_LEN ≤ bytes.length by omega]
    · have hgt : SUN_PATH_LEN < bytes.length := Nat.compare_eq_gt.mp hc
      rcases b with _ | b
      all_goals
        simp [socket_addr, hh, hc, hgt,
          show SUN_PATH_LEN ≤ bytes.length by omega]

/-- Copying into the pre-zeroed buffer leaves the bytes verbatim at the
front followed by the remaining zeros, whenever the bytes fit. -/
theorem copy_into_buf_replicate (bytes : List Nat)
    (h : bytes.length ≤ SUN_PATH_LEN) :
    copy_into_buf (List.replicate SUN_PATH_LEN 0) bytes =
      bytes ++ List.replicate (SUN_PATH_LEN - bytes.length) 0 := by
  unfold copy_into_buf
  rw [List.length_replicate, List.take_of_length_le h, List.drop_replicate]

/-- Claim C2: for every accepted input, the effective length returned by
`socket_addr` is `header_offset + byte_length + 1` when the first byte is
non-zero and the sequence is non-empty, and `header_offset + byte_length`
otherwise; in particular the 13-byte pathname `"./foo/bar.txt"` yields
`13 + offset + 1` and the 6-byte abstract sequence yields `6 + offset`. -/
theorem socket_addr_effective_length :
    (∀ (offset : Nat) (bytes : List Nat) (sa : SockaddrUn) (len : Nat),
        socket_addr offset bytes = .ok (sa, len) →
        len = offset + bytes.length +
          (if bytes ≠ [] ∧ bytes.head? ≠ some 0 then 1 else 0))
  ∧ (∀ offset : Nat,
        socket_addr offset pathname_bytes =
          .ok (⟨AF_UNIX, copy_into_buf (List.replicate SUN_PATH_LEN 0)
            pathname_bytes⟩, 13 + offset + 1))
  ∧ (∀ offset : Nat,
        socket_addr offset abstract_bytes =
          .ok (⟨AF_UNIX, copy_into_buf (List.replicate SUN_PATH_LEN 0)
            abstract_bytes⟩, 6 + offset)) := by
  refine ⟨fun offset bytes sa len h => ?_, fun offset => ?_, fun offset => ?_⟩
  · rw [socket_addr_characterization] at h
    split_ifs at h with h1 h2 h3
    · simp only [Except.ok.injEq, Prod.mk.injEq] at h
      obtain ⟨-, hlen⟩ := h
      have hcond : ¬(bytes ≠ [] ∧ bytes.head? ≠ some 0) := by
        rcases h3 with h3 | h3
        · simp [h3]
        · simp [List.head?_eq_none_iff.mp h3]
      rw [if_neg hcond]
      omega
    · simp only [Except.ok.injEq, Prod.mk.injEq] at h
      obtain ⟨-, hlen⟩ := h
      push_neg at h3
      obtain ⟨h3a, h3b⟩ := h3
      have hcond : bytes ≠ [] ∧ bytes.head? ≠ some 0 := by
        refine ⟨?_, h3a⟩
        intro hb
        subst hb
        simp at h3b
      rw [if_pos hcond]
      omega
  · rw [socket_addr_characterization]
    rw [if_neg (by decide), if_neg (by decide), if_neg (by decide)]
    simp only [Except.ok.injEq, Prod.mk.injEq, pathname_bytes, List.length_cons,
      List.length_nil]
    exact ⟨trivial, by omega⟩
  · rw [socket_addr_characterization]
    rw [if_neg (by decide), if_neg (by decide), if_pos (by decide)]
    simp only [Except.ok.injEq, Prod.mk.injEq, abstract_bytes, List.length_cons,
      List.length_nil]
    exact ⟨trivial, by omega⟩

/-- Witness for C2 at `offset = 2` and the pathname test bytes. -/
theorem socket_addr_effective_length_witness :
    16 = 2 + pathname_bytes.length +
      (if pathname_bytes ≠ [] ∧ pathname_bytes.head? ≠ some 0 then 1 else 0) :=
  socket_addr_effective_length.1 2 pathname_bytes
    ⟨AF_UNIX, copy_into_buf (List.replicate SUN_PATH_LEN 0) pathname_bytes⟩ 16
    (by rfl)

/-- Claim C3: `socket_addr` fails with `InvalidInput` exactly when the
first byte is zero and the length strictly exceeds the buffer capacity
(abstract-namespace error), or otherwise the length is at least the
capacity (pathname-namespace error); in every other case it succeeds,
copying the bytes verbatim into the pre-zeroed buffer. -/
theorem socket_addr_invalid_input (offset : Nat) (bytes : List Nat) :
    (socket_addr offset bytes = .error abstract_ns_error ↔
      bytes.head? = some 0 ∧ SUN_PATH_LEN < bytes.length)
  ∧ (socket_addr offset bytes = .error pathname_ns_error ↔
      ¬(bytes.head? = some 0 ∧ SUN_PATH_LEN < bytes.length) ∧
        SUN_PATH_LEN ≤ bytes.length)
  ∧ (bytes.length < SUN_PATH_LEN →
      socket_addr offset bytes =
        .ok (⟨AF_UNIX, bytes ++ List.replicate (SUN_PATH_LEN - bytes.length) 0⟩,
          offset + bytes.length +
            (if bytes.head? = some 0 ∨ bytes.head? = none then 0 else 1))) := by
  simp only [socket_addr_characterization]
  split_ifs with h1 h2 h3
  · refine ⟨by simp [h1], ?_, fun hlt => absurd hlt (by have := h1.2; omega)⟩
    constructor
    · intro h
      exact absurd h (by simp [abstract_ns_error, pathname_ns_error])
    · intro h
      exact absurd h1 h.1
  · refine ⟨?_, by simp [h1, h2], fun hlt => absurd hlt (by omega)⟩
    constructor
    · intro h
      exact absurd h (by simp [abstract_ns_error, pathname_ns_error])
    · intro h
      exact absurd h h1
  · refine ⟨by simp [h1], by simp [h1, h2], fun hlt => ?_⟩
    rw [copy_into_buf_replicate bytes (le_of_lt hlt)]
  · refine ⟨by simp [h1], by simp [h1, h2], fun hlt => ?_⟩
    rw [copy_into_buf_replicate bytes (le_of_lt hlt)]

/-- Witness for C3: at a 109-byte abstract input the abstract-namespace
error is returned, and at a short pathname input encoding succeeds. -/
theorem socket_addr_invalid_input_witness :
    socket_addr 2 (List.replicate 109 0) = .error abstract_ns_error ∧
    socket_addr 2 [46] =
      .ok (⟨AF_UNIX, [46] ++ List.replicate (SUN_PATH_LEN - 1) 0⟩,
        2 + 1 + (if ([46] : List Nat).head? = some 0 ∨
          ([46] : List Nat).head? = none then 0 else 1)) :=
  ⟨(socket_addr_invalid_input 2 (List.replicate 109 0)).1.mpr
      ⟨rfl, by simp [SUN_PATH_LEN]⟩,
   (socket_addr_invalid_input 2 [46]).2.2 (by simp [SUN_PATH_LEN])⟩

/-! ## Theorems about the TCP lifecycle and option manager -/

/-- Claim C1 (code bug): `get_localaddr` does not reject an unrecognized
family tag. A storage whose family is `AF_UNSPEC` (0) — neither the
IPv4 nor the IPv6 tag — is reinterpreted as an IPv6-shaped address and
returned as a success, while the two recognized tags do produce the
matching shapes. -/
theorem get_localaddr_unrecognized_family :
    get_localaddr (.ok ⟨0, List.replicate 126 0⟩) =
      .ok (.V6 ⟨0, List.replicate 126 0⟩)
  ∧ get_localaddr (.ok ⟨AF_INET, List.replicate 126 0⟩) =
      .ok (.V4 ⟨AF_INET, List.replicate 126 0⟩)
  ∧ get_localaddr (.ok ⟨AF_INET6, List.replicate 126 0⟩) =
      .ok (.V6 ⟨AF_INET6, List.replicate 126 0⟩) :=
  ⟨rfl, rfl, rfl⟩

/-- Claim C4: `connect` succeeds, wrapping the handle into an owning
stream, exactly when the native connect completes immediately or fails
with the would-block indication; any other native error is surfaced
unchanged; and a would-block native failure is an error outcome for
every other operation. -/
theorem connect_wouldblock_success (socket : Nat) (res : Except IoErr Int) :
    (connect socket res = .ok ⟨socket⟩ ↔
      (∃ v, res = .ok v) ∨ ∃ e, res = .error e ∧ e.kind = .WouldBlock)
  ∧ (∀ e, res = .error e → e.kind ≠ .WouldBlock → connect socket res = .error e)
  ∧ (∀ e, e.kind = .WouldBlock →
      bind socket (.error e) = .error e
    ∧ (listen socket 1 (fun _ => .error e)).1 = .error e
    ∧ get_localaddr (.error e) = .error e
    ∧ set_reuseaddr socket 0 true (some e) = .error e
    ∧ get_reuseaddr socket 0 (some e) = .error e
    ∧ (set_linger socket none (fun _ => .error e)).1 = .error e
    ∧ get_keepalive socket (-1) ⟨0, 0, 0⟩ e = .error e) := by
  refine ⟨⟨fun h => ?_, fun h => ?_⟩, fun e he hk => ?_, fun e hk => ?_⟩
  · rcases res with e | v
    · by_cases hkind : e.kind = ErrorKind.WouldBlock
      · exact Or.inr ⟨e, rfl, hkind⟩
      · simp [connect, hkind] at h
    · exact Or.inl ⟨v, rfl⟩
  · rcases h with ⟨v, hv⟩ | ⟨e, he, hkind⟩
    · subst hv; rfl
    · subst he; simp [connect, hkind]
  · subst he
    simp [connect, hk]
  · exact ⟨rfl, rfl, rfl, rfl, rfl, rfl, rfl⟩

/-- Witness for C4 at a concrete would-block error outcome. -/
theorem connect_wouldblock_success_witness :
    connect 7 (.error ⟨.WouldBlock, "op would block"⟩) = .ok ⟨7⟩ :=
  (connect_wouldblock_success 7 (.error ⟨.WouldBlock, "op would block"⟩)).1.mpr
    (Or.inr ⟨⟨.WouldBlock, "op would block"⟩, rfl, rfl⟩)

/-- Claim C8: `listen` hands the native call the backlog itself when it
is representable in the signed 32-bit backlog type and
`i32::max_value()` otherwise, never failing on overflow, and wraps the
handle into an owning listener on native success. -/
theorem listen_backlog_clamped (socket backlog : Nat)
    (os : Nat → Except IoErr Int) (hb : backlog < 2 ^ 32) :
    ((listen socket backlog os).2 =
      if backlog ≤ I32_MAX then backlog else I32_MAX)
  ∧ (∀ v, os (if backlog ≤ I32_MAX then backlog else I32_MAX) = .ok v →
      (listen socket backlog os).1 = .ok ⟨socket⟩)
  ∧ (∀ e, os (if backlog ≤ I32_MAX then backlog else I32_MAX) = .error e →
      (listen socket backlog os).1 = .error e) := by
  refine ⟨rfl, fun v hv => ?_, fun e he => ?_⟩
  · simp [listen, hv]
  · simp [listen, he]

/-- Witness for C8 at the maximal `u32` backlog, which is clamped. -/
theorem listen_backlog_clamped_witness :
    ((listen 3 4294967295 (fun _ => .ok 0)).2 =
      if 4294967295 ≤ I32_MAX then 4294967295 else I32_MAX)
  ∧ (listen 3 4294967295 (fun _ => .ok 0)).1 = .ok ⟨3⟩ :=
  ⟨(listen_backlog_clamped 3 4294967295 (fun _ => .ok 0) (by norm_num)).1,
   (listen_backlog_clamped 3 4294967295 (fun _ => .ok 0) (by norm_num)).2.1
     0 rfl⟩

/-- Claim C9: a successful `set_reuseaddr` with `b` followed by a
successful `get_reuseaddr` returns `b`: true is encoded as the native
`TRUE`, false as `FALSE`, and the getter decodes any non-zero stored
flag as true and zero as false. -/
theorem reuseaddr_roundtrip (socket : Nat) (st st' : Int) (b : Bool)
    (h : set_reuseaddr socket st b none = .ok st') :
    get_reuseaddr socket st' none = .ok b
  ∧ reuseaddr_val true = TRUE
  ∧ reuseaddr_val false = FALSE
  ∧ (∀ v : Int, v ≠ 0 → get_reuseaddr socket v none = .ok true)
  ∧ get_reuseaddr socket 0 none = .ok false := by
  simp only [set_reuseaddr, Except.ok.injEq] at h
  subst h
  refine ⟨by cases b <;> rfl, rfl, rfl, fun v hv => ?_, rfl⟩
  simp [get_reuseaddr, hv]

/-- Witness for C9: setting `true` on a socket whose stored flag was 0
and reading it back yields `true`. -/
theorem reuseaddr_roundtrip_witness :
    get_reuseaddr 5 1 none = .ok true :=
  (reuseaddr_roundtrip 5 0 1 true rfl).1

/-- `run_adjust_calls` fails exactly with the first error among the
calls' outcomes, and succeeds exactly when no call fails. -/
theorem run_adjust_calls_first_error (fcntl : FcntlCall → Except IoErr Int)
    (cs : List FcntlCall) :
    (∀ e, run_adjust_calls fcntl cs = .error e ↔
      fcntl_first_error fcntl cs = some e)
  ∧ (run_adjust_calls fcntl cs = .ok () ↔
      fcntl_first_error fcntl cs = none) := by
  induction cs with
  | nil => simp [run_adjust_calls, fcntl_first_error]
  | cons c rest ih =>
    rcases h : fcntl c with e' | v
    · simp [run_adjust_calls, fcntl_first_error, h]
    · simpa [run_adjust_calls, fcntl_first_error, h] using ih

/-- Claim C5: on the families lacking combined creation flags the pair
is created with the plain flags (default semantics) and then exactly
four adjustment calls run — non-blocking and close-on-exec on each of
the two handles — and the whole operation fails with the error of the
first failing call (creation included); on the other platforms the two
flags are or-ed into the single creation call. -/
theorem pair_descriptors_spec (sp : Nat → Except IoErr (Int × Int))
    (fcntl : FcntlCall → Except IoErr Int) (flags : Nat) (fd0 fd1 : Int) :
    ((fallback_adjust_calls fd0 fd1).length = 4
      ∧ fallback_adjust_calls fd0 fd1 =
          [⟨fd0, F_SETFL, O_NONBLOCK⟩, ⟨fd0, F_SETFD, FD_CLOEXEC⟩,
           ⟨fd1, F_SETFL, O_NONBLOCK⟩, ⟨fd1, F_SETFD, FD_CLOEXEC⟩])
  ∧ (∀ e, sp flags = .error e →
      pair_descriptors_fallback sp fcntl flags = .error e)
  ∧ (sp flags = .ok (fd0, fd1) →
      (∀ e, pair_descriptors_fallback sp fcntl flags = .error e ↔
        fcntl_first_error fcntl (fallback_adjust_calls fd0 fd1) = some e)
      ∧ (pair_descriptors_fallback sp fcntl flags = .ok () ↔
        fcntl_first_error fcntl (fallback_adjust_calls fd0 fd1) = none))
  ∧ ((pair_descriptors_combined sp flags).2 =
        flags ||| SOCK_NONBLOCK ||| SOCK_CLOEXEC
      ∧ ((pair_descriptors_combined sp flags).2).testBit 11 = true
      ∧ ((pair_descriptors_combined sp flags).2).testBit 19 = true
      ∧ ∀ e, (pair_descriptors_combined sp flags).1 = .error e ↔
          sp (flags ||| SOCK_NONBLOCK ||| SOCK_CLOEXEC) = .error e) := by
  refine ⟨⟨rfl, rfl⟩, fun e he => ?_, fun hsp => ?_, rfl, ?_, ?_, fun e => ?_⟩
  · simp [pair_descriptors_fallback, he]
  · simp only [pair_descriptors_fallback, hsp]
    exact run_adjust_calls_first_error fcntl (fallback_adjust_calls fd0 fd1)
  · have h11 : Nat.testBit 2048 11 = true := by decide
    simp [pair_descriptors_combined, SOCK_NONBLOCK, SOCK_CLOEXEC,
      Nat.testBit_lor, h11]
  · have h19 : Nat.testBit 524288 19 = true := by decide
    simp [pair_descriptors_combined, SOCK_NONBLOCK, SOCK_CLOEXEC,
      Nat.testBit_lor, h19]
  · rcases h : sp (flags ||| SOCK_NONBLOCK ||| SOCK_CLOEXEC) with e' | v
    · simp [pair_descriptors_combined, h]
    · simp [pair_descriptors_combined, h]

/-- Witness for C5: with a creation oracle yielding descriptors 3 and 4
and an fcntl oracle whose `F_SETFD` calls fail, the fallback path fails
with the error of its second adjustment call. -/
theorem pair_descriptors_spec_witness :
    pair_descriptors_fallback (fun _ => .ok (3, 4))
      (fun c => if c.cmd = F_SETFD then .error ⟨.Other, "efd"⟩ else .ok 0)
      0 = .error ⟨.Other, "efd"⟩ :=
  (((pair_descriptors_spec (fun _ => .ok (3, 4))
      (fun c => if c.cmd = F_SETFD then .error ⟨.Other, "efd"⟩ else .ok 0)
      0 3 4).2.2.1 rfl).1 ⟨.Other, "efd"⟩).mpr rfl

/-- Counterexample to C6 as stated: for a duration of 65536 seconds the
timeout written into the native linger block is 0, which is not the
duration's whole-second value. -/
theorem set_linger_seconds_counterexample :
    (set_linger 0 (some ⟨65536, 0⟩) (fun _ => .ok ())).2.l_linger ≠
      Duration.as_secs ⟨65536, 0⟩ := by
  decide

/-- Claim C6 (amended): `set_linger` encodes `None` as on/off flag 0 and
timeout 0, and `Some d` as on/off flag 1 with timeout equal to `d`'s
whole seconds reduced modulo `2 ^ 16`; the call fails with an OS error
exactly when the native option call fails. -/
theorem set_linger_encoding (socket : Nat) (dur : Option Duration)
    (os : Linger → Except IoErr Unit) :
    (set_linger socket none os).2 = ⟨0, 0⟩
  ∧ (∀ d, dur = some d →
      (set_linger socket dur os).2 = ⟨1, d.as_secs % 65536⟩)
  ∧ (∀ e, (set_linger socket dur os).1 = .error e ↔
      os (linger_val dur) = .error e) := by
  refine ⟨rfl, fun d hd => ?_, fun e => Iff.rfl⟩
  subst hd
  rfl

/-- Witness for C6 (amended) at a 5-second duration. -/
theorem set_linger_encoding_witness :
    (set_linger 0 (some ⟨5, 0⟩) (fun _ => .ok ())).2 = ⟨1, 5⟩ :=
  (set_linger_encoding 0 (some ⟨5, 0⟩) (fun _ => .ok ())).2.1 ⟨5, 0⟩ rfl

/-- Claim C10: the linger timeout written by `set_linger` is the whole-
second value reduced modulo `2 ^ 16` — the `c_ushort` cast wraps rather
than clamps — so every duration of 65536 seconds or more encodes to a
timeout different from its whole-second value. -/
theorem set_linger_timeout_wraps (d : Duration)
    (os : Linger → Except IoErr Unit) :
    ((set_linger 0 (some d) os).2.l_linger = d.as_secs % 65536)
  ∧ (65536 ≤ d.as_secs →
      (set_linger 0 (some d) os).2.l_linger ≠ d.as_secs) := by
  refine ⟨rfl, fun h => ?_⟩
  show d.as_secs % 65536 ≠ d.as_secs
  have hlt : d.as_secs % 65536 < 65536 := Nat.mod_lt _ (by norm_num)
  omega

/-- Witness for C10 at exactly 65536 seconds. -/
theorem set_linger_timeout_wraps_witness :
    (set_linger 0 (some ⟨65536, 0⟩) (fun _ => .ok ())).2.l_linger ≠
      Duration.as_secs ⟨65536, 0⟩ :=
  (set_linger_timeout_wraps ⟨65536, 0⟩ (fun _ => .ok ())).2 (Nat.le_refl _)

/-- Claim C7: on a successful native keep-alive query `get_keepalive`
returns `None` when the on/off flag is 0 or the reported interval is 0,
and otherwise the reported interval interpreted as a duration in
milliseconds; a failed native query returns the OS error. -/
theorem get_keepalive_spec (socket : Nat) (res : Int) (k : TcpKeepalive)
    (e : IoErr) :
    (res = 0 →
      (k.onoff = 0 ∨ k.keepaliveinterval = 0 →
        get_keepalive socket res k e = .ok none)
      ∧ (k.onoff ≠ 0 → k.keepaliveinterval ≠ 0 →
        get_keepalive socket res k e =
          .ok (some (Duration.from_millis k.keepaliveinterval))))
  ∧ (res ≠ 0 → get_keepalive socket res k e = .error e)
  ∧ (∀ ms : Nat, (Duration.from_millis ms).as_millis = ms) := by
  refine ⟨fun h0 => ⟨fun hdis => ?_, fun hon hint => ?_⟩,
    fun hne => ?_, fun ms => ?_⟩
  · simp [get_keepalive, h0, hdis]
  · simp [get_keepalive, h0, hon, hint]
  · simp [get_keepalive, hne]
  · show ms / 1000 * 1000 + ms % 1000 * 1000000 / 1000000 = ms
    rw [Nat.mul_div_cancel _ (by norm_num : (0 : Nat) < 1000000)]
    omega

/-- Witness for C7 at a successful query reporting a 7500 ms interval. -/
theorem get_keepalive_spec_witness :
    get_keepalive 1 0 ⟨1, 7500, 7500⟩ ⟨.Other, "x"⟩ =
      .ok (some (Duration.from_millis 7500)) :=
  ((get_keepalive_spec 1 0 ⟨1, 7500, 7500⟩ ⟨.Other, "x"⟩).1 rfl).2
    (by decide) (by decide)

end Mio
